import Mathlib

/-!
Verification development for the ClimateCast PH prediction engine
(src/components/hero.tsx).

Modelling conventions:
* JavaScript numbers are modelled as rationals (ℚ).  A value that can be a
  non-finite float (NaN or ±Infinity) in JavaScript is modelled as
  `Option ℚ`, with `none` standing for any non-finite value; comments at
  each such site justify the abstraction.
* Calendar years (TypeScript strings fed through parseInt) are modelled as
  integers; `parseInt` on a canonical decimal rendering of an integer is the
  identity, and the one string comparison of years in the source
  (`years[years.length - 1] !== predictionYear.toString()`) is injective on
  canonical renderings, so it is modelled as integer equality.
* `new Date().getFullYear()` is a parameter `currentYear : ℤ` threaded to
  every function that reads it.
* `Math.pow` is called with the fractional exponents 0.8 and 0.7; no closed
  form exists over ℚ, so the functions take an uninterpreted parameter
  `pw : ℚ → ℚ → ℚ` standing for `Math.pow` at those call sites.  Structural
  theorems hold for every `pw`, hence in particular for the real one.
* The `regression` npm library (the fit primitives) is not part of the
  repository sources; `fitLinear` / `fitPoly2` below are modelled from the
  spec (§4.1), including its rules that R² is 0 when SS_total = 0 and that
  a degenerate system (fewer distinct x-values than coefficients) yields a
  NaN-carrying result (`none`).
* Narrative detail strings (number formatting via toFixed/toExponential) are
  not referenced by any claim and are elided from the outcome structure.
-/

namespace ClimateCast

/-- One historical record, as fetched from the `philippines_temperature_trends`
table (`TemperatureData` in hero.tsx).  `year` is stored as a string in the
source and parsed with `parseInt`; we model it as an integer directly. -/
structure TemperatureData where
  year : ℤ
  annual_mean : ℚ
  five_year_smooth : ℚ
deriving Repr, DecidableEq

/-- The model selector (`ModelType` in hero.tsx). -/
inductive ModelType where
  | polynomial
  | movingAverage
  | linear
deriving Repr, DecidableEq

/-- Smooth value of the last record of a list, 0 if empty (the source only
reads it from non-empty lists). -/
def lastSmooth (l : List TemperatureData) : ℚ :=
  ((l.getLast?).map (·.five_year_smooth)).getD 0

/-- Smooth value of the first record of a list, 0 if empty. -/
def firstSmooth (l : List TemperatureData) : ℚ :=
  ((l.head?).map (·.five_year_smooth)).getD 0

/-- Year of the last record of a list, 0 if empty. -/
def lastYear (l : List TemperatureData) : ℤ :=
  ((l.getLast?).map (·.year)).getD 0

/-- Year of the first record of a list, 0 if empty. -/
def firstYear (l : List TemperatureData) : ℤ :=
  ((l.head?).map (·.year)).getD 0

/-- 3×3 determinant, row major. -/
def det3 (a b c d e f g h i : ℚ) : ℚ :=
  a * (e * i - f * h) - b * (d * i - f * g) + c * (d * h - e * g)

/-- Result of a linear least-squares fit. -/
structure LinFit where
  slope : ℚ
  intercept : ℚ
  r2 : ℚ
deriving Repr, DecidableEq

/-- Modelled from the spec: `fitLinear` of the Regression Primitives (§4.1),
the `regression` npm library's ordinary least-squares linear fit, which is
not part of the repository sources.  Per the spec it fails (returns a
NaN-carrying result, modelled `none`) when there are fewer than 2 points or
all x-values are identical (zero variance), and computes
R² = 1 − SS_residual / SS_total, defined as 0 when SS_total = 0. -/
def fitLinear (points : List (ℚ × ℚ)) : Option LinFit :=
  let n : ℚ := points.length
  let sx := (points.map (·.1)).sum
  let sy := (points.map (·.2)).sum
  let sxx := (points.map (fun p => p.1 ^ 2)).sum
  let sxy := (points.map (fun p => p.1 * p.2)).sum
  let denom := n * sxx - sx ^ 2
  if denom = 0 then none
  else
    let slope := (n * sxy - sx * sy) / denom
    let intercept := (sy - slope * sx) / n
    let predicted := points.map (fun p => slope * p.1 + intercept)
    let meanY := sy / n
    let ssTot := (points.map (fun p => (p.2 - meanY) ^ 2)).sum
    let ssRes : ℚ := (List.zipWith (fun p q => (p.2 - q) ^ 2) points predicted).sum
    some ⟨slope, intercept, if ssTot = 0 then 0 else 1 - ssRes / ssTot⟩

/-- Result of a degree-2 polynomial least-squares fit:
y = a·x² + b·x + c. -/
structure PolyFit where
  a : ℚ
  b : ℚ
  c : ℚ
  r2 : ℚ
deriving Repr, DecidableEq

/-- Evaluate a degree-2 fit at x (the library's `predict`). -/
def PolyFit.predictAt (f : PolyFit) (x : ℚ) : ℚ :=
  f.a * x ^ 2 + f.b * x + f.c

/-- Modelled from the spec: `fitPolynomial` with degree 2 of the Regression
Primitives (§4.1), the `regression` npm library's least-squares fit on the
Vandermonde-expanded design matrix, which is not part of the repository
sources.  The normal equations are solved by Cramer's rule; a singular
system (fewer than 3 distinct x-values) is the spec's degeneracy failure
and yields `none` (a NaN-carrying result).  R² = 1 − SS_residual/SS_total,
defined as 0 when SS_total = 0. -/
def fitPoly2 (points : List (ℚ × ℚ)) : Option PolyFit :=
  let s0 : ℚ := points.length
  let s1 := (points.map (·.1)).sum
  let s2 := (points.map (fun p => p.1 ^ 2)).sum
  let s3 := (points.map (fun p => p.1 ^ 3)).sum
  let s4 := (points.map (fun p => p.1 ^ 4)).sum
  let t0 := (points.map (·.2)).sum
  let t1 := (points.map (fun p => p.1 * p.2)).sum
  let t2 := (points.map (fun p => p.1 ^ 2 * p.2)).sum
  let det := det3 s0 s1 s2 s1 s2 s3 s2 s3 s4
  if det = 0 then none
  else
    let c := det3 t0 s1 s2 t1 s2 s3 t2 s3 s4 / det
    let b := det3 s0 t0 s2 s1 t1 s3 s2 t2 s4 / det
    let a := det3 s0 s1 t0 s1 s2 t1 s2 s3 t2 / det
    let predicted := points.map (fun p => a * p.1 ^ 2 + b * p.1 + c)
    let meanY := t0 / s0
    let ssTot := (points.map (fun p => (p.2 - meanY) ^ 2)).sum
    let ssRes : ℚ := (List.zipWith (fun p q => (p.2 - q) ^ 2) points predicted).sum
    some ⟨a, b, c, if ssTot = 0 then 0 else 1 - ssRes / ssTot⟩

/-- The confidence-decay multiplier, duplicated verbatim inside both
`calculatePolynomialRegression` (hero.tsx lines 273-286) and
`calculateLinearRegression` (lines 389-400); factored here once since the
two code blocks are identical.  `maxConfidentYears = 15`,
`maxPredictionYears = 76`; decay = pow((yif−15)/(76−15), 0.7);
multiplier = max(0.25, 1 − decay·0.75), and 1 when yif ≤ 15. -/
def confidenceMultiplier (pw : ℚ → ℚ → ℚ) (yearsIntoFuture : ℤ) : ℚ :=
  if 15 < yearsIntoFuture then
    max (1 / 4) (1 - pw (((yearsIntoFuture : ℚ) - 15) / (76 - 15)) (7 / 10) * (3 / 4))
  else 1

/-- Outcome of the polynomial / linear model functions.  `prediction` and
`r2` are `none` exactly when the corresponding JavaScript float would be
non-finite (NaN/±Infinity):  a degenerate fit poisons both, and the
degrees-of-freedom division by `n − 3` poisons `r2` when the window has
exactly 3 points (0/0 is NaN, nonzero/0 is ±Infinity; in either case the
resulting confidence is non-finite). -/
structure ModelResult where
  prediction : Option ℚ
  r2 : Option ℚ
deriving Repr, DecidableEq

/-- The last-30-records window used by the polynomial model
(`data.slice(-30)`, hero.tsx line 220); for fewer than 30 records the whole
series. -/
def polyWindow (data : List TemperatureData) : List TemperatureData :=
  data.drop (data.length - 30)

/-- The normalized points the polynomial model fits
(hero.tsx lines 223-230): x = year − first recent year, y = five_year_smooth. -/
def polyPoints (data : List TemperatureData) : List (ℚ × ℚ) :=
  (polyWindow data).map
    (fun d => (((d.year - firstYear (polyWindow data) : ℤ) : ℚ), d.five_year_smooth))

/-- The normalized points the linear model fits (hero.tsx lines 362-367):
the whole series, x = year − first year. -/
def linPoints (data : List TemperatureData) : List (ℚ × ℚ) :=
  data.map (fun d => (((d.year - firstYear data : ℤ) : ℚ), d.five_year_smooth))

/-- `calculatePolynomialRegression` (hero.tsx lines 216-296), with
`currentYear` standing for `new Date().getFullYear()` and `pw` for
`Math.pow`.  The equation string (line 266) is elided. -/
def calculatePolynomialRegression (pw : ℚ → ℚ → ℚ) (data : List TemperatureData)
    (currentYear targetYear : ℤ) : ModelResult :=
  if data.length = 0 then ⟨some 0, some 0⟩
  else
    let recentData := polyWindow data
    let baseYear := firstYear recentData
    let points := polyPoints data
    let normalizedYear : ℚ := ((targetYear - baseYear : ℤ) : ℚ)
    let yearsIntoFuture := targetYear - currentYear
    let dampeningFactor := max (1 / 5) (1 - pw (((yearsIntoFuture : ℤ) : ℚ) / 50) (4 / 5))
    match fitPoly2 points with
    | none => ⟨none, none⟩
    | some fit =>
      let rawPrediction := fit.predictAt normalizedYear
      let lastKnownTemp := lastSmooth recentData
      let predictedChange := rawPrediction - lastKnownTemp
      let adjustmentFactor :=
        if 0 < predictedChange then max (3 / 10) (1 - predictedChange / 10)
        else min (17 / 10) (1 - predictedChange / 10)
      let dampedChange := predictedChange * dampeningFactor * adjustmentFactor
      let prediction := lastKnownTemp + dampedChange
      let n := points.length
      let baseR2? : Option ℚ :=
        if n = 3 then none
        else some (1 - (1 - fit.r2) * ((n : ℚ) - 1) / ((n : ℚ) - 3))
      ⟨some prediction, baseR2?.map (· * confidenceMultiplier pw yearsIntoFuture)⟩

/-- Outcome of `calculateMovingAverage`; the description string is elided.
`r2` is `none` when the JavaScript computation would produce NaN. -/
structure MAResult where
  prediction : ℚ
  r2 : Option ℚ
deriving Repr, DecidableEq

/-- `calculateMovingAverage` (hero.tsx lines 303-351).  The r2 clamp line is
`Math.max(0, Math.min(1, 1 - ssResidual / ssTotal))`; in JavaScript, when
`ssTotal = 0` and `ssResidual = 0` the quotient is NaN and both Math.min and
Math.max propagate it (result NaN, modelled `none`); when `ssTotal = 0` and
`ssResidual > 0` the quotient is +Infinity and the clamp of 1−∞ = −∞ yields
0.  Both branches are spelled out. -/
def calculateMovingAverage (data : List TemperatureData) (targetYear : ℤ) : MAResult :=
  if data.length = 0 then ⟨0, some 0⟩
  else
    let recentData := data.drop (data.length - 5)
    let avgTemp := (recentData.map (·.five_year_smooth)).sum / (recentData.length : ℚ)
    let yearlyChange := (lastSmooth recentData - firstSmooth recentData) / 4
    let lastYr := lastYear data
    let yearsAhead := targetYear - lastYr
    let prediction := avgTemp + yearlyChange * ((yearsAhead : ℤ) : ℚ)
    let startTemp := firstSmooth recentData
    let predictedValues := (List.range recentData.length).map
      (fun i => startTemp + yearlyChange * (i : ℚ))
    let actualValues := recentData.map (·.five_year_smooth)
    let meanActual := actualValues.sum / (actualValues.length : ℚ)
    let ssTotal := (actualValues.map (fun v => (v - meanActual) ^ 2)).sum
    let ssResidual : ℚ := (List.zipWith (fun v p => (v - p) ^ 2) actualValues predictedValues).sum
    let r2 : Option ℚ :=
      if ssTotal = 0 then (if ssResidual = 0 then none else some 0)
      else some (max 0 (min 1 (1 - ssResidual / ssTotal)))
    ⟨prediction, r2⟩

/-- `calculateLinearRegression` (hero.tsx lines 358-414); equation strings,
slope/intercept/baseYear fields of the returned object are elided (no claim
references them). -/
def calculateLinearRegression (pw : ℚ → ℚ → ℚ) (data : List TemperatureData)
    (currentYear targetYear : ℤ) : ModelResult :=
  if data.length = 0 then ⟨some 0, some 0⟩
  else
    let baseYear := firstYear data
    let points := linPoints data
    let normalizedYear : ℚ := ((targetYear - baseYear : ℤ) : ℚ)
    let yearsIntoFuture := targetYear - currentYear
    match fitLinear points with
    | none => ⟨none, none⟩
    | some fit =>
      ⟨some (fit.slope * normalizedYear + fit.intercept),
       some (fit.r2 * confidenceMultiplier pw yearsIntoFuture)⟩

/-- Dispatch on the selected model, as in `handleSimulation` (lines 518-560)
and `generatePredictionLine` (lines 462-474); returns the model's predicted
temperature (non-finite modelled as `none`).  The moving-average prediction
is always a finite number, wrapped here for uniformity. -/
def modelPrediction (pw : ℚ → ℚ → ℚ) (model : ModelType) (data : List TemperatureData)
    (currentYear targetYear : ℤ) : Option ℚ :=
  match model with
  | ModelType.polynomial => (calculatePolynomialRegression pw data currentYear targetYear).prediction
  | ModelType.linear => (calculateLinearRegression pw data currentYear targetYear).prediction
  | ModelType.movingAverage => some (calculateMovingAverage data targetYear).prediction

/-- The trend line produced by `generatePredictionLine` (state
`predictionLine` in hero.tsx): index-aligned year and temperature arrays.
Years are strings of integers in the source, modelled as integers; a
temperature is `Option ℚ` since a NaN prediction can be pushed. -/
structure PredictionLine where
  years : List ℤ
  temps : List (Option ℚ)
deriving Repr, DecidableEq

/-- The for-loop of `generatePredictionLine` (hero.tsx lines 452-478):
starting at `year`, while `year ≤ predY`, push the year and the selected
model's prediction at it (`f year`), with a NaN result replaced by the
final prediction `fb` (`isNaN(temp) ? predictionTemp : temp`), then advance
by `step`.  The source loop terminates because `step ≥ 1` on this path; the
`fuel` argument is an artifact of the embedding, and the caller passes
enough fuel for the loop to run to completion (one unit per iteration plus
the final failed test). -/
def trendLoop (f : ℤ → Option ℚ) (fb : Option ℚ) (predY step : ℤ) :
    ℕ → ℤ → List ℤ × List (Option ℚ)
  | 0, _ => ([], [])
  | fuel + 1, year =>
    if year ≤ predY then
      let rest := trendLoop f fb predY step fuel (year + step)
      (year :: rest.1, (match f year with | none => fb | some v => some v) :: rest.2)
    else ([], [])

/-- `generatePredictionLine` (hero.tsx lines 422-488).  `predictionTemp` is
the final prediction handed in by the orchestrator; `numPoints = 5`;
`yearStep = ceil((predictionYear − lastDataYear)/numPoints)`. -/
def generatePredictionLine (pw : ℚ → ℚ → ℚ) (data : List TemperatureData)
    (currentYear predictionYear : ℤ) (predictionTemp : Option ℚ)
    (modelType : ModelType) : PredictionLine :=
  if data.length = 0 then ⟨[], []⟩
  else
    let lastDataYear := lastYear data
    let yearStep : ℤ := ⌈((predictionYear - lastDataYear : ℤ) : ℚ) / 5⌉
    if yearStep ≤ 0 ∨ predictionYear ≤ lastDataYear then
      ⟨[lastDataYear, predictionYear], [some (lastSmooth data), predictionTemp]⟩
    else
      let f := fun y => modelPrediction pw modelType data currentYear y
      let start := lastDataYear + yearStep
      let fuel := (predictionYear + 1 - start).toNat + 1
      let rest := trendLoop f predictionTemp predictionYear yearStep fuel start
      let years := lastDataYear :: rest.1
      let temps := some (lastSmooth data) :: rest.2
      if years.getLast? = some predictionYear then ⟨years, temps⟩
      else ⟨years ++ [predictionYear], temps ++ [predictionTemp]⟩

/-- The dynamic plausibility margin (hero.tsx lines 565-571):
`baseMargin = 1.5`, `marginIncrease = min(3, yearsIntoFuture / 20)`. -/
def plausibilityMargin (currentYear targetYear : ℤ) : ℚ :=
  3 / 2 + min 3 (((targetYear - currentYear : ℤ) : ℚ) / 20)

/-- Maximum of the `annual_mean` column, `Math.max(...data.map(d =>
d.annual_mean))` (hero.tsx line 563).  For an empty list the JavaScript
spread gives −Infinity; that case is handled separately in `guardRejects`
and the 0 returned here is never used. -/
def maxAnnual : List TemperatureData → ℚ
  | [] => 0
  | d :: rest => (rest.map (·.annual_mean)).foldl max d.annual_mean

/-- Minimum of the `annual_mean` column (hero.tsx line 564); see
`maxAnnual` for the empty case. -/
def minAnnual : List TemperatureData → ℚ
  | [] => 0
  | d :: rest => (rest.map (·.annual_mean)).foldl min d.annual_mean

/-- The Plausibility Guard test of `handleSimulation` (hero.tsx lines
562-576): rejects when `prediction < minTemp − margin` or
`prediction > maxTemp + margin`.  A NaN prediction (`none`) compares false
on both sides and is therefore accepted.  For an empty series the envelope
degenerates to [+Infinity, −Infinity] and every finite prediction is
rejected (the models return the finite 0 for empty data). -/
def guardRejects (currentYear targetYear : ℤ) (data : List TemperatureData)
    (p : Option ℚ) : Bool :=
  if data.length = 0 then true
  else
    let margin := plausibilityMargin currentYear targetYear
    let allowedMin := minAnnual data - margin
    let allowedMax := maxAnnual data + margin
    (match p with | some q => decide (q < allowedMin) | none => false)
    || (match p with | some q => decide (allowedMax < q) | none => false)

/-- The user-visible outcome (`result` state in hero.tsx); the narrative
`details` strings are elided (no claim references their formatted
content). -/
structure SimResult where
  prediction : Option ℚ
  error : Option String
deriving Repr, DecidableEq

/-- Rejection message for target years before 2024 (hero.tsx line 507). -/
def invalidYearMsg : String := "Please select a year from 2024 onwards for predictions."

/-- Rejection message of the Plausibility Guard (hero.tsx line 580). -/
def outOfRangeMsg : String := "Prediction falls outside realistic range."

/-- The component state read and written by `handleSimulation`.  UI-only
state (loading flags, userInitiated, toast) is elided. -/
structure SimState where
  data : List TemperatureData
  selectedModel : ModelType
  yearToPredict : ℤ
  result : Option SimResult
  predictionLine : PredictionLine
deriving Repr, DecidableEq

/-- `handleSimulation` (hero.tsx lines 497-605), the Simulation
Orchestrator, as a state transition.  Note the year validation only tests
`inputYear < 2024`; there is no test against an upper bound.  On either
rejection path the function returns without touching `predictionLine`.
The try/catch around the computation is unreachable in this model (the
rational arithmetic is total), so the catch branch is not represented. -/
def handleSimulation (pw : ℚ → ℚ → ℚ) (currentYear : ℤ) (s : SimState) : SimState :=
  if s.yearToPredict < 2024 then
    { s with result := some ⟨some 0, some invalidYearMsg⟩ }
  else
    let prediction := modelPrediction pw s.selectedModel s.data currentYear s.yearToPredict
    if guardRejects currentYear s.yearToPredict s.data prediction then
      { s with result := some ⟨some 0, some outOfRangeMsg⟩ }
    else
      { s with
          predictionLine :=
            generatePredictionLine pw s.data currentYear s.yearToPredict prediction
              s.selectedModel,
          result := some ⟨prediction, none⟩ }

/-- Claim C5's formula for the polynomial model's final prediction, written
from the claim's words: rawPrediction is the degree-2 fit over the last 30
records (x normalized to the first recent year) evaluated at the normalized
target year; predictedChange = rawPrediction − lastKnownSmooth;
dampeningFactor = max(0.2, 1 − (Δyears/50)^0.8) for
Δyears = targetYear − currentCalendarYear; adjustmentFactor =
max(0.3, 1 − predictedChange/10) if predictedChange > 0, else
min(1.7, 1 − predictedChange/10); final = lastKnownSmooth +
predictedChange × dampeningFactor × adjustmentFactor.  (`none` when the fit
is degenerate, where the code's arithmetic is NaN.) -/
def polyPredictionSpec (pw : ℚ → ℚ → ℚ) (data : List TemperatureData)
    (currentYear targetYear : ℤ) : Option ℚ :=
  (fitPoly2 (polyPoints data)).map (fun fit =>
    let rawPrediction := fit.predictAt ((targetYear - firstYear (polyWindow data) : ℤ) : ℚ)
    let lastKnownSmooth := lastSmooth (polyWindow data)
    let predictedChange := rawPrediction - lastKnownSmooth
    let dampeningFactor :=
      max (1 / 5) (1 - pw (((targetYear - currentYear : ℤ) : ℚ) / 50) (4 / 5))
    let adjustmentFactor :=
      if 0 < predictedChange then max (3 / 10) (1 - predictedChange / 10)
      else min (17 / 10) (1 - predictedChange / 10)
    lastKnownSmooth + predictedChange * dampeningFactor * adjustmentFactor)

/-- Claim C7's formula for the Moving-Average prediction, written from the
claim's words: avgTemp is the mean five_year_smooth of the last 5 records,
yearlyChange = (last.smooth − first.smooth)/4 over those 5 records,
yearsAhead = targetYear − lastHistoricalYear, and
prediction = avgTemp + yearlyChange × yearsAhead. -/
def maPredictionSpec (data : List TemperatureData) (targetYear : ℤ) : ℚ :=
  let last5 := data.drop (data.length - 5)
  let avgTemp := (last5.map (·.five_year_smooth)).sum / 5
  let yearlyChange := (lastSmooth last5 - firstSmooth last5) / 4
  avgTemp + yearlyChange * ((targetYear - lastYear data : ℤ) : ℚ)

/-- A pow stub used to instantiate the uninterpreted `Math.pow` parameter in
closed statements; the structural theorems hold for every such function. -/
def pw0 : ℚ → ℚ → ℚ := fun _ _ => 0

/-- A pow stub whose value is 1 everywhere (in particular at (1, 0.7), in
agreement with `Math.pow(1, 0.7) = 1`). -/
def pw1 : ℚ → ℚ → ℚ := fun _ _ => 1

/-- Four records whose smooth values zig-zag: the quadratic fit is poor
(R² = 1/5), making the degrees-of-freedom-adjusted R² negative. -/
def zigD : List TemperatureData :=
  [⟨2001, 25, 25⟩, ⟨2002, 26, 26⟩, ⟨2003, 25, 25⟩, ⟨2004, 26, 26⟩]

/-- Five records whose smooth values are the claim C7 scenario
[25.0, 25.1, 25.2, 25.3, 25.4]. -/
def ma5D : List TemperatureData :=
  [⟨2018, 25, 25⟩, ⟨2019, 25, 251 / 10⟩, ⟨2020, 25, 126 / 5⟩,
   ⟨2021, 25, 253 / 10⟩, ⟨2022, 25, 127 / 5⟩]

/-- Five records with constant smooth value 26 (a constant window:
SS_total = 0). -/
def constD : List TemperatureData :=
  [⟨2018, 26, 26⟩, ⟨2019, 26, 26⟩, ⟨2020, 26, 26⟩, ⟨2021, 26, 26⟩, ⟨2022, 26, 26⟩]

/-- Five records with a steep smooth ramp (+2 per year): the moving-average
extrapolation to 2100 is far outside the historical envelope, so the
Plausibility Guard rejects it. -/
def rampD : List TemperatureData :=
  [⟨2018, 25, 20⟩, ⟨2019, 25, 22⟩, ⟨2020, 25, 24⟩, ⟨2021, 25, 26⟩, ⟨2022, 25, 28⟩]

/-- Three records with distinct years (a 3-point window: the quadratic fit
is exact but the degrees-of-freedom denominator n − 3 is zero). -/
def d3 : List TemperatureData :=
  [⟨2020, 25, 25⟩, ⟨2021, 26, 26⟩, ⟨2022, 27, 27⟩]

/-- State with target year 2150 (above the spec's upper bound 2100) and the
moving-average model over `constD`, fresh result and empty trend line. -/
def stateYear2150 : SimState :=
  ⟨constD, ModelType.movingAverage, 2150, none, ⟨[], []⟩⟩

/-- State with target year 2023 (below 2024), fresh result and empty trend
line. -/
def stateYear2023 : SimState :=
  ⟨ma5D, ModelType.polynomial, 2023, none, ⟨[], []⟩⟩

/-- State over `rampD` targeting 2100 with an empty trend line; the guard
rejects its prediction (180 °C). -/
def stateGuardEmpty : SimState :=
  ⟨rampD, ModelType.movingAverage, 2100, none, ⟨[], []⟩⟩

/-- State over `rampD` targeting 2100 whose trend line already holds a point
from an earlier accepted run; the guard rejects the new prediction. -/
def stateGuardStale : SimState :=
  ⟨rampD, ModelType.movingAverage, 2100, none, ⟨[2022], [some 28]⟩⟩

theorem getLast?_cons_of_ne_nil {α : Type} (a : α) {l : List α} (h : l ≠ []) :
    (a :: l).getLast? = l.getLast? := by
  cases l with
  | nil => exact absurd rfl h
  | cons b t => exact List.getLast?_cons_cons

/-- C7: for every series with at least 5 records, the Moving-Average
prediction equals avgTemp + yearlyChange × yearsAhead with avgTemp the mean
five_year_smooth of the last 5 records, yearlyChange =
(last.smooth − first.smooth)/4 over those 5 records and yearsAhead =
targetYear − lastHistoricalYear; in particular for last-5 smooth values
[25.0, 25.1, 25.2, 25.3, 25.4] and yearsAhead = 3 the prediction is
25.2 + 0.3 = 25.5. -/
theorem moving_average_prediction_formula :
    (∀ (data : List TemperatureData) (targetYear : ℤ), 5 ≤ data.length →
      (calculateMovingAverage data targetYear).prediction = maPredictionSpec data targetYear)
    ∧ (calculateMovingAverage ma5D 2025).prediction = 51 / 2 := by
  constructor
  · intro data targetYear h5
    have hlen : ¬ data.length = 0 := by omega
    have hd : (data.drop (data.length - 5)).length = 5 := by
      rw [List.length_drop]; omega
    simp only [calculateMovingAverage, maPredictionSpec, if_neg hlen, hd]
    norm_num
  · norm_num [calculateMovingAverage, ma5D, lastSmooth, firstSmooth, lastYear,
      List.range_succ]

theorem moving_average_prediction_formula_witness :
    5 ≤ ma5D.length
    ∧ (calculateMovingAverage ma5D 2025).prediction = maPredictionSpec ma5D 2025
    ∧ maPredictionSpec ma5D 2025 = 51 / 2 :=
  ⟨by norm_num [ma5D],
   moving_average_prediction_formula.1 ma5D 2025 (by norm_num [ma5D]),
   by norm_num [maPredictionSpec, ma5D, lastSmooth, firstSmooth, lastYear]⟩

/-- C9 (failing input): on a window of 5 records with constant
five_year_smooth, SS_total is 0 and the Moving-Average confidence is the
JavaScript NaN (0/0, modelled `none`), not the 0 the claim states. -/
theorem moving_average_constant_r2_nan :
    (calculateMovingAverage constD 2030).r2 = none ∧
    (calculateMovingAverage constD 2030).r2 ≠ some 0 := by
  have h : (calculateMovingAverage constD 2030).r2 = none := by
    norm_num [calculateMovingAverage, constD, lastSmooth, firstSmooth, lastYear,
      List.range_succ]
  exact ⟨h, by rw [h]; exact fun hc => Option.noConfusion hc⟩

theorem fitPoly2_singleton (p : ℚ × ℚ) : fitPoly2 [p] = none := by
  obtain ⟨x, y⟩ := p
  simp only [fitPoly2, List.map, List.sum_cons, List.sum_nil, List.length_cons,
    List.length_nil]
  rw [if_pos (by unfold det3; push_cast; ring)]

theorem fitPoly2_pair (p q : ℚ × ℚ) : fitPoly2 [p, q] = none := by
  obtain ⟨x, y⟩ := p
  obtain ⟨z, w⟩ := q
  simp only [fitPoly2, List.map, List.sum_cons, List.sum_nil, List.length_cons,
    List.length_nil]
  rw [if_pos (by unfold det3; push_cast; ring)]

/-- C10: the polynomial model's degrees-of-freedom adjustment divides by
n − 3 with no guard (n = number of records in the last-30 window): with
exactly 3 records the denominator is zero and the confidence is non-finite
(`none`); with 1 or 2 records the degree-2 fit itself is degenerate and the
confidence is likewise non-finite — so a finite polynomial confidence needs
a window of at least 4 records. -/
theorem polynomial_confidence_small_window :
    ∀ (pw : ℚ → ℚ → ℚ) (data : List TemperatureData) (currentYear targetYear : ℤ),
      data.length ≠ 0 → data.length ≤ 3 →
      (calculatePolynomialRegression pw data currentYear targetYear).r2 = none := by
  intro pw data currentYear targetYear hne hlen
  match data with
  | [] => exact absurd rfl hne
  | [a] =>
    have h1 : polyPoints [a]
        = [(((a.year - firstYear (polyWindow [a]) : ℤ) : ℚ), a.five_year_smooth)] := rfl
    simp only [calculatePolynomialRegression]
    rw [if_neg (by simp : ¬ ([a].length = 0)), h1, fitPoly2_singleton]
  | [a, b] =>
    have h2 : polyPoints [a, b]
        = [(((a.year - firstYear (polyWindow [a, b]) : ℤ) : ℚ), a.five_year_smooth),
           (((b.year - firstYear (polyWindow [a, b]) : ℤ) : ℚ), b.five_year_smooth)] := rfl
    simp only [calculatePolynomialRegression]
    rw [if_neg (by simp : ¬ ([a, b].length = 0)), h2, fitPoly2_pair]
  | [a, b, c] =>
    simp only [calculatePolynomialRegression]
    rw [if_neg (by simp : ¬ ([a, b, c].length = 0))]
    rcases hfit : fitPoly2 (polyPoints [a, b, c]) with _ | fit
    · rfl
    · simp [polyPoints, polyWindow]
  | _ :: _ :: _ :: _ :: _ => simp at hlen

theorem polynomial_confidence_small_window_witness :
    d3.length ≠ 0 ∧ d3.length ≤ 3 ∧
    (calculatePolynomialRegression pw0 d3 2025 2030).r2 = none :=
  ⟨by norm_num [d3], by norm_num [d3],
   polynomial_confidence_small_window pw0 d3 2025 2030 (by norm_num [d3])
     (by norm_num [d3])⟩

/-- C5: for every non-empty series and target year, the polynomial model's
final prediction is lastKnownSmooth + predictedChange × dampeningFactor ×
adjustmentFactor with the quantities of `polyPredictionSpec`, the claim's
formula (rawPrediction the degree-2 fit over the last 30 records evaluated
at the normalized target year, dampening max(0.2, 1 − (Δyears/50)^0.8),
adjustment max(0.3, 1 − c/10) for warming and min(1.7, 1 − c/10) for
cooling). -/
theorem polynomial_prediction_formula :
    ∀ (pw : ℚ → ℚ → ℚ) (data : List TemperatureData) (currentYear targetYear : ℤ),
      data.length ≠ 0 →
      (calculatePolynomialRegression pw data currentYear targetYear).prediction
        = polyPredictionSpec pw data currentYear targetYear := by
  intro pw data currentYear targetYear hne
  rcases hfit : fitPoly2 (polyPoints data) with _ | fit <;>
    simp only [calculatePolynomialRegression, polyPredictionSpec, if_neg hne, hfit,
      Option.map_none', Option.map_some']

theorem polynomial_prediction_formula_witness :
    zigD.length ≠ 0 ∧
    (calculatePolynomialRegression pw0 zigD 2025 2030).prediction
      = polyPredictionSpec pw0 zigD 2025 2030 ∧
    polyPredictionSpec pw0 zigD 2025 2030 = some (57 / 2) :=
  ⟨by norm_num [zigD],
   polynomial_prediction_formula pw0 zigD 2025 2030 (by norm_num [zigD]),
   by norm_num [polyPredictionSpec, polyPoints, polyWindow, zigD, fitPoly2, det3,
     firstYear, lastSmooth, PolyFit.predictAt, pw0]⟩

/-- C6: for both the polynomial and the linear model, the confidence-decay
multiplier is 1 when yearsIntoFuture ≤ 15 (the final confidence is then the
model's raw (adjusted) R², no decay), and otherwise is
max(0.25, 1 − decay·0.75) with decay = ((yif − 15)/(76 − 15))^0.7; at
yif = 76 the multiplier floors at 0.25.  -/
theorem confidence_decay_formula :
    (∀ (pw : ℚ → ℚ → ℚ) (yif : ℤ), yif ≤ 15 → confidenceMultiplier pw yif = 1)
    ∧ (∀ (pw : ℚ → ℚ → ℚ) (yif : ℤ), 15 < yif →
        confidenceMultiplier pw yif
          = max (1 / 4) (1 - pw (((yif : ℚ) - 15) / 61) (7 / 10) * (3 / 4)))
    ∧ (∀ pw : ℚ → ℚ → ℚ, pw 1 (7 / 10) = 1 → confidenceMultiplier pw 76 = 1 / 4)
    ∧ (∀ (pw : ℚ → ℚ → ℚ) (data : List TemperatureData) (currentYear targetYear : ℤ)
        (fit : PolyFit), data.length ≠ 0 →
        fitPoly2 (polyPoints data) = some fit →
        (polyPoints data).length ≠ 3 →
        targetYear - currentYear ≤ 15 →
        (calculatePolynomialRegression pw data currentYear targetYear).r2
          = some (1 - (1 - fit.r2) * (((polyPoints data).length : ℚ) - 1)
              / (((polyPoints data).length : ℚ) - 3)))
    ∧ (∀ (pw : ℚ → ℚ → ℚ) (data : List TemperatureData) (currentYear targetYear : ℤ)
        (lf : LinFit), data.length ≠ 0 →
        fitLinear (linPoints data) = some lf →
        targetYear - currentYear ≤ 15 →
        (calculateLinearRegression pw data currentYear targetYear).r2 = some lf.r2) := by
  refine ⟨?_, ?_, ?_, ?_, ?_⟩
  · intro pw yif h
    simp only [confidenceMultiplier, if_neg (by omega : ¬ 15 < yif)]
  · intro pw yif h
    simp only [confidenceMultiplier, if_pos h]
    norm_num
  · intro pw hpw
    simp only [confidenceMultiplier, if_pos (by omega : (15:ℤ) < 76)]
    rw [show ((((76:ℤ) : ℚ) - 15) / (76 - 15) : ℚ) = 1 by norm_num, hpw]
    norm_num
  · intro pw data currentYear targetYear fit hne hfit hn3 h15
    simp only [calculatePolynomialRegression, polyPoints, polyWindow, if_neg hne] at hfit ⊢
    rw [hfit]
    simp only [confidenceMultiplier, if_neg (by omega : ¬ (15:ℤ) < targetYear - currentYear)]
    rw [if_neg (by simpa [polyPoints, polyWindow] using hn3)]
    simp [mul_one]
  · intro pw data currentYear targetYear lf hne hfit h15
    simp only [calculateLinearRegression, linPoints, if_neg hne] at hfit ⊢
    rw [hfit]
    simp only [confidenceMultiplier, if_neg (by omega : ¬ (15:ℤ) < targetYear - currentYear)]
    simp [mul_one]

theorem confidence_decay_formula_witness :
    confidenceMultiplier pw1 76 = 1 / 4 ∧ confidenceMultiplier pw1 10 = 1 :=
  ⟨confidence_decay_formula.2.2.1 pw1 rfl,
   confidence_decay_formula.1 pw1 10 (by omega)⟩

/-- C1 (counterexample): on the four-record zig-zag series the polynomial
model's confidence is −7/5, outside [0, 1]: the confidence is not clamped. -/
theorem polynomial_confidence_negative :
    (calculatePolynomialRegression pw0 zigD 2025 2030).r2 = some (-7 / 5)
    ∧ ¬ (0 ≤ (-7 / 5 : ℚ) ∧ (-7 / 5 : ℚ) ≤ 1) := by
  constructor
  · norm_num [calculatePolynomialRegression, polyPoints, polyWindow, zigD, fitPoly2,
      det3, firstYear, lastSmooth, PolyFit.predictAt, pw0, confidenceMultiplier]
  · norm_num

/-- C1 (amended): the Moving-Average confidence is clamped into [0, 1]
whenever it is a (finite) number; the polynomial and linear models multiply
their (adjusted) R² by a decay multiplier lying in [1/4, 1] with no final
clamp — and the polynomial degrees-of-freedom adjustment can push the
confidence below 0 (third conjunct). -/
theorem confidence_clamping_amended :
    (∀ (data : List TemperatureData) (targetYear : ℤ) (q : ℚ),
        (calculateMovingAverage data targetYear).r2 = some q → 0 ≤ q ∧ q ≤ 1)
    ∧ (∀ pw : ℚ → ℚ → ℚ, (∀ x y : ℚ, 0 ≤ x → 0 ≤ pw x y) → ∀ yif : ℤ,
        1 / 4 ≤ confidenceMultiplier pw yif ∧ confidenceMultiplier pw yif ≤ 1)
    ∧ (∃ v : ℚ, (calculatePolynomialRegression pw0 zigD 2025 2030).r2 = some v ∧ v < 0) := by
  refine ⟨?_, ?_, ?_⟩
  · intro data targetYear q h
    simp only [calculateMovingAverage] at h
    by_cases hlen : data.length = 0
    · rw [if_pos hlen] at h
      cases h
      norm_num
    · rw [if_neg hlen] at h
      split_ifs at h with h1 h2
      · have h' := Option.some.inj h
        subst h'
        norm_num
      · have h' := Option.some.inj h
        subst h'
        exact ⟨le_max_left 0 _, max_le (by norm_num) (min_le_left 1 _)⟩
  · intro pw hpw yif
    by_cases h : 15 < yif
    · simp only [confidenceMultiplier, if_pos h]
      constructor
      · exact le_max_left _ _
      · refine max_le (by norm_num) ?_
        have harg : (0:ℚ) ≤ ((yif : ℚ) - 15) / (76 - 15) := by
          apply div_nonneg
          · have : (15:ℚ) < (yif : ℚ) := by exact_mod_cast h
            linarith
          · norm_num
        have := hpw _ (7 / 10) harg
        nlinarith
    · simp only [confidenceMultiplier, if_neg h]
      norm_num
  · exact ⟨-7 / 5,
      by norm_num [calculatePolynomialRegression, polyPoints, polyWindow, zigD, fitPoly2,
        det3, firstYear, lastSmooth, PolyFit.predictAt, pw0, confidenceMultiplier],
      by norm_num⟩

theorem confidence_clamping_amended_witness :
    (calculateMovingAverage ma5D 2030).r2 = some 1 ∧ (0 ≤ (1:ℚ) ∧ (1:ℚ) ≤ 1) :=
  ⟨by norm_num [calculateMovingAverage, ma5D, lastSmooth, firstSmooth, lastYear,
      List.range_succ],
   confidence_clamping_amended.1 ma5D 2030 1
     (by norm_num [calculateMovingAverage, ma5D, lastSmooth, firstSmooth, lastYear,
       List.range_succ])⟩

theorem foldl_min_le_foldl_max : ∀ (l : List ℚ) (a b : ℚ), a ≤ b →
    l.foldl min a ≤ l.foldl max b := by
  intro l
  induction l with
  | nil => intro a b h; simpa using h
  | cons x t ih =>
    intro a b h
    exact ih (min a x) (max b x)
      (le_trans (min_le_left a x) (le_trans h (le_max_left b x)))

theorem minAnnual_le_maxAnnual (data : List TemperatureData) (h : data.length ≠ 0) :
    minAnnual data ≤ maxAnnual data := by
  cases data with
  | nil => exact absurd rfl h
  | cons d rest => exact foldl_min_le_foldl_max _ _ _ le_rfl

theorem plausibilityMargin_nonneg (currentYear targetYear : ℤ)
    (h : currentYear ≤ targetYear) : 0 ≤ plausibilityMargin currentYear targetYear := by
  unfold plausibilityMargin
  have h0 : (0:ℚ) ≤ ((targetYear - currentYear : ℤ) : ℚ) / 20 := by
    apply div_nonneg _ (by norm_num)
    exact_mod_cast Int.sub_nonneg.mpr h
  have := le_min (by norm_num : (0:ℚ) ≤ 3) h0
  linarith

/-- C3 (amended): for every non-empty series, prediction p and target
year not before the current year, the Plausibility Guard accepts p iff
minTemp − margin ≤ p ≤ maxTemp + margin with margin =
1.5 + min(3, yearsIntoFuture/20); a prediction exactly at maxTemp + margin
is accepted, one unit above is rejected, and the orchestrator's rejection
then carries the message "Prediction falls outside realistic range."
(with a trailing period, unlike the claim's quotation). -/
theorem plausibility_guard_amended :
    ∀ (currentYear targetYear : ℤ) (data : List TemperatureData),
      data.length ≠ 0 → currentYear ≤ targetYear →
      (∀ q : ℚ, guardRejects currentYear targetYear data (some q) = false ↔
          minAnnual data - plausibilityMargin currentYear targetYear ≤ q ∧
          q ≤ maxAnnual data + plausibilityMargin currentYear targetYear)
      ∧ guardRejects currentYear targetYear data
          (some (maxAnnual data + plausibilityMargin currentYear targetYear)) = false
      ∧ guardRejects currentYear targetYear data
          (some (maxAnnual data + plausibilityMargin currentYear targetYear + 1)) = true
      ∧ (∀ (pw : ℚ → ℚ → ℚ) (s : SimState), s.data = data → s.yearToPredict = targetYear →
          2024 ≤ targetYear →
          guardRejects currentYear targetYear data
            (modelPrediction pw s.selectedModel data currentYear targetYear) = true →
          (handleSimulation pw currentYear s).result = some ⟨some 0, some outOfRangeMsg⟩) := by
  intro currentYear targetYear data hne hcy
  have hiff : ∀ q : ℚ, guardRejects currentYear targetYear data (some q) = false ↔
      minAnnual data - plausibilityMargin currentYear targetYear ≤ q ∧
      q ≤ maxAnnual data + plausibilityMargin currentYear targetYear := by
    intro q
    simp only [guardRejects, if_neg hne, Bool.or_eq_false_iff,
      decide_eq_false_iff_not, not_lt]
  refine ⟨hiff, ?_, ?_, ?_⟩
  · rw [hiff]
    have h1 := minAnnual_le_maxAnnual data hne
    have h2 := plausibilityMargin_nonneg currentYear targetYear hcy
    exact ⟨by linarith, le_rfl⟩
  · simp only [guardRejects, if_neg hne, Bool.or_eq_true, decide_eq_true_eq]
    right
    linarith
  · intro pw s hd hy h2024 hrej
    unfold handleSimulation
    rw [if_neg (by omega : ¬ s.yearToPredict < 2024)]
    rw [hd, hy]
    simp [hrej]

theorem plausibility_guard_amended_witness :
    guardRejects 2025 2030 ma5D
      (some (maxAnnual ma5D + plausibilityMargin 2025 2030)) = false
    ∧ guardRejects 2025 2030 ma5D
      (some (maxAnnual ma5D + plausibilityMargin 2025 2030 + 1)) = true :=
  ⟨(plausibility_guard_amended 2025 2030 ma5D (by norm_num [ma5D]) (by omega)).2.1,
   (plausibility_guard_amended 2025 2030 ma5D (by norm_num [ma5D]) (by omega)).2.2.1⟩

/-- C3 (counterexample): a guard-rejected run carries the message
"Prediction falls outside realistic range." — with a trailing period — so
the claim's quoted message "Prediction falls outside realistic range"
(no period) is not the message the outcome carries. -/
theorem rejection_message_has_period :
    (handleSimulation pw0 2025 stateGuardEmpty).result
      = some ⟨some 0, some outOfRangeMsg⟩
    ∧ outOfRangeMsg ≠ "Prediction falls outside realistic range" := by
  constructor
  · norm_num [handleSimulation, stateGuardEmpty, rampD, modelPrediction,
      calculateMovingAverage, guardRejects, plausibilityMargin, maxAnnual, minAnnual,
      lastSmooth, firstSmooth, lastYear, firstYear, List.range_succ]
  · simp [outOfRangeMsg]

/-- C2 (amended): the orchestrator rejects only target years below 2024 —
for those the outcome is the constant
("Please select a year from 2024 onwards for predictions.", zero
prediction), independent of the series and the selected model (so no model
output can reach it), and the trend-line state is left unchanged (hence
still empty when starting from the initial empty state). -/
theorem year_validation_amended :
    ∀ (pw : ℚ → ℚ → ℚ) (currentYear : ℤ) (s : SimState), s.yearToPredict < 2024 →
      (handleSimulation pw currentYear s).result = some ⟨some 0, some invalidYearMsg⟩
      ∧ (handleSimulation pw currentYear s).predictionLine = s.predictionLine := by
  intro pw currentYear s h
  unfold handleSimulation
  rw [if_pos h]
  exact ⟨rfl, rfl⟩

theorem year_validation_amended_witness :
    (handleSimulation pw0 2025 stateYear2023).result
      = some ⟨some 0, some invalidYearMsg⟩
    ∧ (handleSimulation pw0 2025 stateYear2023).predictionLine = ⟨[], []⟩ :=
  year_validation_amended pw0 2025 stateYear2023 (by norm_num [stateYear2023])

set_option maxRecDepth 8000 in
set_option maxHeartbeats 1000000 in
/-- C2 (counterexample): the orchestrator performs no upper-bound check:
with target year 2150 (outside [2024, 2100]) the moving-average model runs,
its prediction 26 passes the guard, the outcome carries it with no error,
and a trend line is generated — so values above 2100 do reach the
Prediction Models. -/
theorem upper_bound_not_enforced :
    (2100 : ℤ) < stateYear2150.yearToPredict
    ∧ (handleSimulation pw0 2025 stateYear2150).result = some ⟨some 26, none⟩
    ∧ (handleSimulation pw0 2025 stateYear2150).predictionLine.years
        = [2022, 2048, 2074, 2100, 2126, 2150] := by
  have hc : (⌈(128:ℚ)/5⌉ : ℤ) = 26 := by
    rw [Int.ceil_eq_iff]
    norm_num
  refine ⟨by norm_num [stateYear2150], ?_, ?_⟩ <;>
    norm_num [handleSimulation, stateYear2150, constD, modelPrediction,
      calculateMovingAverage, guardRejects, plausibilityMargin, maxAnnual, minAnnual,
      lastSmooth, firstSmooth, lastYear, firstYear, generatePredictionLine, trendLoop,
      List.range_succ, hc]

/-- C4 (amended): when the Plausibility Guard rejects, the outcome carries
the error message and a zero prediction and no trend line is generated for
that run — the trend-line state is left unchanged, so it holds no points
only when it held none before (e.g. from the initial empty state). -/
theorem rejected_run_amended :
    ∀ (pw : ℚ → ℚ → ℚ) (currentYear : ℤ) (s : SimState),
      ¬ s.yearToPredict < 2024 →
      guardRejects currentYear s.yearToPredict s.data
        (modelPrediction pw s.selectedModel s.data currentYear s.yearToPredict) = true →
      (handleSimulation pw currentYear s).result = some ⟨some 0, some outOfRangeMsg⟩
      ∧ (handleSimulation pw currentYear s).predictionLine = s.predictionLine := by
  intro pw currentYear s h hrej
  unfold handleSimulation
  rw [if_neg h]
  simp [hrej]

theorem rejected_run_amended_witness :
    guardRejects 2025 2100 rampD
      (modelPrediction pw0 ModelType.movingAverage rampD 2025 2100) = true
    ∧ (handleSimulation pw0 2025 stateGuardEmpty).result
        = some ⟨some 0, some outOfRangeMsg⟩
    ∧ (handleSimulation pw0 2025 stateGuardEmpty).predictionLine = ⟨[], []⟩ := by
  have hg : guardRejects 2025 2100 rampD
      (modelPrediction pw0 ModelType.movingAverage rampD 2025 2100) = true := by
    norm_num [modelPrediction, calculateMovingAverage, guardRejects, plausibilityMargin,
      maxAnnual, minAnnual, lastSmooth, firstSmooth, lastYear, firstYear, rampD,
      List.range_succ]
  have h := rejected_run_amended pw0 2025 stateGuardEmpty (by norm_num [stateGuardEmpty]) hg
  exact ⟨hg, h.1, h.2⟩

/-- C4 (counterexample): a guard-rejected run does not clear the previous
trend line: starting from a state whose line holds the point (2022, 28),
the rejected run ends with the outcome error set but the trend line still
holding that point — the trend-line result is not empty after the rejected
run. -/
theorem stale_trend_line_after_rejection :
    (handleSimulation pw0 2025 stateGuardStale).result
      = some ⟨some 0, some outOfRangeMsg⟩
    ∧ (handleSimulation pw0 2025 stateGuardStale).predictionLine.years = [2022] := by
  constructor <;>
    norm_num [handleSimulation, stateGuardStale, rampD, modelPrediction,
      calculateMovingAverage, guardRejects, plausibilityMargin, maxAnnual, minAnnual,
      lastSmooth, firstSmooth, lastYear, firstYear, List.range_succ]

theorem trendLoop_length (f : ℤ → Option ℚ) (fb : Option ℚ) (predY step : ℤ) :
    ∀ (fuel : ℕ) (year : ℤ),
      ((trendLoop f fb predY step fuel year).1).length
        = ((trendLoop f fb predY step fuel year).2).length := by
  intro fuel
  induction fuel with
  | zero => intro year; rfl
  | succ n ih =>
    intro year
    simp only [trendLoop]
    split
    · simp [ih]
    · rfl

theorem trendLoop_gt (f : ℤ → Option ℚ) (fb : Option ℚ) (predY step : ℤ)
    (fuel : ℕ) (year : ℤ) (h : predY < year) :
    trendLoop f fb predY step fuel year = ([], []) := by
  cases fuel with
  | zero => rfl
  | succ n => simp only [trendLoop, if_neg (not_le.mpr h)]

theorem trendLoop_last (f : ℤ → Option ℚ) (fb : Option ℚ) (predY step : ℤ)
    (hstep : 0 < step) :
    ∀ (fuel : ℕ) (year : ℤ), (predY + 1 - year).toNat < fuel → year ≤ predY →
      ∃ l : ℤ, l ≤ predY ∧ predY < l + step ∧
        (trendLoop f fb predY step fuel year).1.getLast? = some l ∧
        (trendLoop f fb predY step fuel year).2.getLast?
          = some (match f l with | none => fb | some v => some v) := by
  intro fuel
  induction fuel with
  | zero => intro year hf _; exact absurd hf (Nat.not_lt_zero _)
  | succ n ih =>
    intro year hf hy
    simp only [trendLoop, if_pos hy]
    by_cases hnext : year + step ≤ predY
    · obtain ⟨l, h1, h2, h3, h4⟩ := ih (year + step) (by omega) hnext
      refine ⟨l, h1, h2, ?_, ?_⟩
      · rw [getLast?_cons_of_ne_nil]
        · exact h3
        · intro hnil
          rw [hnil] at h3
          exact Option.noConfusion h3
      · rw [getLast?_cons_of_ne_nil]
        · exact h4
        · intro hnil
          rw [hnil] at h4
          exact Option.noConfusion h4
    · push_neg at hnext
      rw [trendLoop_gt f fb predY step n (year + step) hnext]
      exact ⟨year, hy, hnext, rfl, rfl⟩

/-- C8: for every non-empty series, model kind and target year, the trend
line generated for the model's own prediction has years and temperatures of
equal length, starts at (lastHistoricalYear, lastHistoricalSmooth), and its
last point is exactly (targetYear, finalPrediction) whether the stepping
loop lands on the target year, undershoots it, or never runs. -/
theorem trend_line_endpoints :
    ∀ (pw : ℚ → ℚ → ℚ) (data : List TemperatureData) (currentYear targetYear : ℤ)
      (modelType : ModelType) (pt : Option ℚ),
      data.length ≠ 0 →
      pt = modelPrediction pw modelType data currentYear targetYear →
      (generatePredictionLine pw data currentYear targetYear pt modelType).years.length
        = (generatePredictionLine pw data currentYear targetYear pt modelType).temps.length
      ∧ (generatePredictionLine pw data currentYear targetYear pt modelType).years.head?
          = some (lastYear data)
      ∧ (generatePredictionLine pw data currentYear targetYear pt modelType).temps.head?
          = some (some (lastSmooth data))
      ∧ (generatePredictionLine pw data currentYear targetYear pt modelType).years.getLast?
          = some targetYear
      ∧ (generatePredictionLine pw data currentYear targetYear pt modelType).temps.getLast?
          = some pt := by
  intro pw data currentYear targetYear modelType pt hne hpt
  simp only [generatePredictionLine, if_neg hne]
  split_ifs with h2 hlast
  · exact ⟨rfl, rfl, rfl, by simp, by simp⟩
  · push_neg at h2
    obtain ⟨hs0, hlt⟩ := h2
    have hstep : 0 < ⌈((targetYear - lastYear data : ℤ) : ℚ) / 5⌉ := by omega
    refine ⟨by simp [trendLoop_length], rfl, rfl, hlast, ?_⟩
    by_cases hstart : lastYear data + ⌈((targetYear - lastYear data : ℤ) : ℚ) / 5⌉
        ≤ targetYear
    · obtain ⟨l, hl1, hl2, hgl1, hgl2⟩ :=
        trendLoop_last (fun y => modelPrediction pw modelType data currentYear y) pt
          targetYear (⌈((targetYear - lastYear data : ℤ) : ℚ) / 5⌉) hstep
          ((targetYear + 1 - (lastYear data +
            ⌈((targetYear - lastYear data : ℤ) : ℚ) / 5⌉)).toNat + 1)
          (lastYear data + ⌈((targetYear - lastYear data : ℤ) : ℚ) / 5⌉)
          (Nat.lt_succ_self _) hstart
      have h1ne : (trendLoop (fun y => modelPrediction pw modelType data currentYear y) pt
          targetYear (⌈((targetYear - lastYear data : ℤ) : ℚ) / 5⌉)
          ((targetYear + 1 - (lastYear data +
            ⌈((targetYear - lastYear data : ℤ) : ℚ) / 5⌉)).toNat + 1)
          (lastYear data + ⌈((targetYear - lastYear data : ℤ) : ℚ) / 5⌉)).1 ≠ [] := by
        intro hnil
        rw [hnil] at hgl1
        exact Option.noConfusion hgl1
      have h2ne : (trendLoop (fun y => modelPrediction pw modelType data currentYear y) pt
          targetYear (⌈((targetYear - lastYear data : ℤ) : ℚ) / 5⌉)
          ((targetYear + 1 - (lastYear data +
            ⌈((targetYear - lastYear data : ℤ) : ℚ) / 5⌉)).toNat + 1)
          (lastYear data + ⌈((targetYear - lastYear data : ℤ) : ℚ) / 5⌉)).2 ≠ [] := by
        intro hnil
        rw [hnil] at hgl2
        exact Option.noConfusion hgl2
      have hlast' : l = targetYear := by
        rw [getLast?_cons_of_ne_nil _ h1ne, hgl1] at hlast
        exact Option.some.inj hlast
      rw [getLast?_cons_of_ne_nil _ h2ne, hgl2, hlast']
      rcases hm : modelPrediction pw modelType data currentYear targetYear with _ | v
      · simp only [hm, hpt.trans hm]
      · simp only [hm, hpt.trans hm]
    · push_neg at hstart
      rw [trendLoop_gt _ _ _ _ _ _ hstart] at hlast
      simp at hlast
      omega
  · push_neg at h2
    obtain ⟨hs0, hlt⟩ := h2
    refine ⟨by simp [trendLoop_length], by simp, by simp, ?_, ?_⟩
    · exact List.getLast?_concat _
    · exact List.getLast?_concat _

theorem trend_line_endpoints_witness :
    some ((51:ℚ) / 2) = modelPrediction pw0 ModelType.movingAverage ma5D 2025 2025
    ∧ (generatePredictionLine pw0 ma5D 2025 2025 (some (51 / 2))
        ModelType.movingAverage).years.length
      = (generatePredictionLine pw0 ma5D 2025 2025 (some (51 / 2))
          ModelType.movingAverage).temps.length
    ∧ (generatePredictionLine pw0 ma5D 2025 2025 (some (51 / 2))
        ModelType.movingAverage).years.getLast? = some 2025
    ∧ (generatePredictionLine pw0 ma5D 2025 2025 (some (51 / 2))
        ModelType.movingAverage).temps.getLast? = some (some (51 / 2)) := by
  have hpt : some ((51:ℚ) / 2)
      = modelPrediction pw0 ModelType.movingAverage ma5D 2025 2025 := by
    norm_num [modelPrediction, calculateMovingAverage, ma5D, lastSmooth, firstSmooth,
      lastYear, List.range_succ]
  have h := trend_line_endpoints pw0 ma5D 2025 2025 ModelType.movingAverage
    (some (51 / 2)) (by norm_num [ma5D]) hpt
  exact ⟨hpt, h.1, h.2.2.2.1, h.2.2.2.2⟩

end ClimateCast
